import Mathlib

/-!
Shallow embedding of the outcome-resolution engine of the pachinko game
(`PachinkoGame` in `script.js`): the weighted pocket selector `pickPocket`,
the two-stage resolver `resolvePocketOutcome`, the random-source normalizer
`getRandom`, and the credit ledger mutated by `handleShoot`, `finalizeDrop`
and `handleReset`.

Modelling conventions:
- JavaScript numbers are modelled as `ℚ` (all constants in play are exact).
- A possibly-absent field (`undefined`/`null`) is an `Option ℚ`; the JS
  nullish-coalescing `x ?? d` is `x.getD d`.
- The JS truthiness test `pocket.rushReward ? _ : _` is `qTruthy`, which is
  false for an absent field and for the value `0`.
- The injected random provider is a stream `provider : ℕ → ℚ`; each call of
  `this.getRandom()` reads the next index, so functions that may draw thread
  an explicit index `i` and return the next unused index.  The number of
  draws a call consumes is the difference of the indices.
-/

namespace PachinkoCore

/-- One pocket of the board: `id` plus the fields the engine reads
(`reward`, `rushReward`, `weight`); display-only fields are omitted. -/
structure Pocket where
  id : String
  reward : Option ℚ
  rushReward : Option ℚ
  weight : Option ℚ
deriving DecidableEq

/-- The outcome object returned by `resolvePocketOutcome`. -/
structure Outcome where
  isWin : Bool
  isRush : Bool
  reward : ℚ
deriving DecidableEq

/-- The configuration fields the engine reads (from `DEFAULT_CONFIG` merged
with overrides). -/
structure Config where
  initialCredits : ℚ
  ballCost : ℚ
  hitRate : Option ℚ
  rushRate : Option ℚ
  rushRewardMultiplier : Option ℚ
  pockets : List Pocket
deriving DecidableEq

/-- JS truthiness of an optional number: absent, and the number `0`, are
falsy; every other number is truthy. -/
def qTruthy : Option ℚ → Bool
  | some x => x != 0
  | none => false

/-- `Math.max(0, Math.min(1, x))`. -/
def clamp01 (x : ℚ) : ℚ := max 0 (min 1 x)

/-- `getRandom`: take the provider's value at index `i`, apply `Math.abs`,
and subtract `Math.floor` of it. -/
def getRandom (provider : ℕ → ℚ) (i : ℕ) : ℚ :=
  |provider i| - (⌊|provider i|⌋ : ℚ)

/-- `resolvePocketOutcome(pocket)`: reward gate, clamped hit roll, clamped
rush roll, reward computation.  Returns the outcome together with the next
unused provider index. -/
def resolvePocketOutcome (cfg : Config) (pocket : Pocket) (provider : ℕ → ℚ)
    (i : ℕ) : Outcome × ℕ :=
  if pocket.reward.getD 0 ≤ 0 then (⟨false, false, 0⟩, i)
  else if clamp01 (cfg.hitRate.getD 0) ≤ 0 then (⟨false, false, 0⟩, i)
  else if getRandom provider i ≥ clamp01 (cfg.hitRate.getD 0) then
    (⟨false, false, 0⟩, i + 1)
  else
    (⟨true, decide (getRandom provider (i + 1) < clamp01 (cfg.rushRate.getD 0)),
      if getRandom provider (i + 1) < clamp01 (cfg.rushRate.getD 0) then
        (if qTruthy pocket.rushReward then
          max (pocket.rushReward.getD 0) (pocket.reward.getD 0)
        else pocket.reward.getD 0 * max 1 (cfg.rushRewardMultiplier.getD 1))
      else pocket.reward.getD 0⟩, i + 2)

/-- `Math.max(pocket.weight ?? 1, 0)`, the clamped weight of one pocket. -/
def clampedWeight (pocket : Pocket) : ℚ := max (pocket.weight.getD 1) 0

/-- The cumulative-sum walk of `pickPocket`: return the first pocket whose
running total of clamped weights strictly exceeds the target, `none` if the
walk exhausts the list. -/
def pickWalk (target : ℚ) : ℚ → List Pocket → Option Pocket
  | _, [] => none
  | cumulative, pocket :: rest =>
    if target < cumulative + clampedWeight pocket then some pocket
    else pickWalk target (cumulative + clampedWeight pocket) rest

/-- `pickPocket()`: sum the clamped weights; on a nonpositive total return
the first pocket with no draw; otherwise draw once, scale by the total, and
walk the cumulative sums, falling back to the last pocket if the walk
exhausts the list. -/
def pickPocket (pockets : List Pocket) (provider : ℕ → ℚ) (i : ℕ) :
    Option Pocket × ℕ :=
  if (pockets.map clampedWeight).sum ≤ 0 then (pockets[0]?, i)
  else
    (match pickWalk (getRandom provider i * (pockets.map clampedWeight).sum) 0
        pockets with
     | some pocket => some pocket
     | none => pockets.getLast?, i + 1)

/-- The mutable session state of a `PachinkoGame` instance (the fields the
ledger operations touch), plus the provider index `rng` and the pocket of a
ball in flight (`pending`, captured by `animateBall`'s closure in JS). -/
structure GameState where
  credits : ℚ
  ballCount : ℕ
  isDropping : Bool
  pending : Option Pocket
  lastOutcome : Option Outcome
  rng : ℕ
deriving DecidableEq

/-- Constructor state: `credits = initialCredits`, `ballCount = 0`,
`isDropping = false`, no last outcome. -/
def initState (cfg : Config) : GameState :=
  ⟨cfg.initialCredits, 0, false, none, none, 0⟩

/-- `handleShoot()`: no-op while a ball is dropping or when
`credits < ballCost`; otherwise charge the ball cost, count the ball, pick
a pocket (consuming that call's draws) and mark dropping. -/
def handleShoot (cfg : Config) (provider : ℕ → ℚ) (s : GameState) :
    GameState :=
  if s.isDropping then s
  else if s.credits < cfg.ballCost then s
  else
    { credits := s.credits - cfg.ballCost
      ballCount := s.ballCount + 1
      isDropping := true
      pending := (pickPocket cfg.pockets provider s.rng).1
      lastOutcome := s.lastOutcome
      rng := (pickPocket cfg.pockets provider s.rng).2 }

/-- `finalizeDrop(pocket)`: resolve the outcome, credit its reward when
strictly positive, clear the dropping flag and record the outcome. -/
def finalizeDrop (cfg : Config) (provider : ℕ → ℚ) (pocket : Pocket)
    (s : GameState) : GameState :=
  { credits :=
      if 0 < (resolvePocketOutcome cfg pocket provider s.rng).1.reward then
        s.credits + (resolvePocketOutcome cfg pocket provider s.rng).1.reward
      else s.credits
    ballCount := s.ballCount
    isDropping := false
    pending := none
    lastOutcome := some (resolvePocketOutcome cfg pocket provider s.rng).1
    rng := (resolvePocketOutcome cfg pocket provider s.rng).2 }

/-- `handleReset()`: restore initial credits, zero the ball count, clear the
dropping flag.  (`lastOutcome` the JS code leaves untouched; only its
display is reset.) -/
def handleReset (cfg : Config) (s : GameState) : GameState :=
  { credits := cfg.initialCredits
    ballCount := 0
    isDropping := false
    pending := none
    lastOutcome := s.lastOutcome
    rng := s.rng }

/-- The ledger-mutating invocations a session can make. -/
inductive GameAction where
  | shoot
  | finalize
  | reset
deriving DecidableEq

/-- One invocation: `finalize` resolves the ball in flight, if any. -/
def stepGame (cfg : Config) (provider : ℕ → ℚ) (s : GameState) :
    GameAction → GameState
  | .shoot => handleShoot cfg provider s
  | .finalize =>
    match s.pending with
    | some pocket => finalizeDrop cfg provider pocket s
    | none => s
  | .reset => handleReset cfg s

/-- Run a sequence of invocations. -/
def runGame (cfg : Config) (provider : ℕ → ℚ) (s : GameState) :
    List GameAction → GameState
  | [] => s
  | a :: rest => runGame cfg provider (stepGame cfg provider s a) rest

/-- The `DEFAULT_CONFIG` of the pachinko variant: 120 credits, ball cost 1,
hit rate `1/99`, rush rate `0.25`, rush multiplier 4, and the five default
pockets with weights `[1, 2, 3, 3, 5]`. -/
def defaultConfig : Config :=
  ⟨120, 1, some (1/99), some (1/4), some 4,
    [⟨"jackpot", some 50, some 200, some 1⟩,
     ⟨"gold", some 20, some 80, some 2⟩,
     ⟨"silver-left", some 10, some 40, some 3⟩,
     ⟨"silver-right", some 10, some 40, some 3⟩,
     ⟨"miss", some 0, none, some 5⟩]⟩

end PachinkoCore

namespace PachinkoCore

/-! ## Helper lemmas shared by the claim theorems -/

/-- A provider value already in `[0, 1)` passes through `getRandom`
unchanged. -/
lemma getRandom_of_unit (provider : ℕ → ℚ) (i : ℕ) (h0 : 0 ≤ provider i)
    (h1 : provider i < 1) : getRandom provider i = provider i := by
  unfold getRandom
  rw [abs_of_nonneg h0, Int.floor_eq_zero_iff.mpr ⟨h0, h1⟩]
  simp

/-- Shape of `resolvePocketOutcome` when the reward gate fires. -/
lemma resolve_reward_gate (cfg : Config) (pocket : Pocket) (provider : ℕ → ℚ)
    (i : ℕ) (h : pocket.reward.getD 0 ≤ 0) :
    resolvePocketOutcome cfg pocket provider i = (⟨false, false, 0⟩, i) := by
  unfold resolvePocketOutcome
  rw [if_pos h]

/-- Shape of `resolvePocketOutcome` when the clamped hit rate is
nonpositive: a miss with no draw. -/
lemma resolve_rate_gate (cfg : Config) (pocket : Pocket) (provider : ℕ → ℚ)
    (i : ℕ) (h1 : ¬ pocket.reward.getD 0 ≤ 0)
    (h2 : clamp01 (cfg.hitRate.getD 0) ≤ 0) :
    resolvePocketOutcome cfg pocket provider i = (⟨false, false, 0⟩, i) := by
  unfold resolvePocketOutcome
  rw [if_neg h1, if_pos h2]

/-- Shape of `resolvePocketOutcome` when the hit roll fails: a miss after
one draw. -/
lemma resolve_roll_miss (cfg : Config) (pocket : Pocket) (provider : ℕ → ℚ)
    (i : ℕ) (h1 : ¬ pocket.reward.getD 0 ≤ 0)
    (h2 : ¬ clamp01 (cfg.hitRate.getD 0) ≤ 0)
    (h3 : getRandom provider i ≥ clamp01 (cfg.hitRate.getD 0)) :
    resolvePocketOutcome cfg pocket provider i = (⟨false, false, 0⟩, i + 1) := by
  unfold resolvePocketOutcome
  rw [if_neg h1, if_neg h2, if_pos h3]

/-- Shape of `resolvePocketOutcome` when the hit roll passes: a win after
two draws, the rush roll read at the next index. -/
lemma resolve_roll_hit (cfg : Config) (pocket : Pocket) (provider : ℕ → ℚ)
    (i : ℕ) (h1 : ¬ pocket.reward.getD 0 ≤ 0)
    (h2 : ¬ clamp01 (cfg.hitRate.getD 0) ≤ 0)
    (h3 : ¬ getRandom provider i ≥ clamp01 (cfg.hitRate.getD 0)) :
    resolvePocketOutcome cfg pocket provider i =
      (⟨true, decide (getRandom provider (i + 1) < clamp01 (cfg.rushRate.getD 0)),
        if getRandom provider (i + 1) < clamp01 (cfg.rushRate.getD 0) then
          (if qTruthy pocket.rushReward then
            max (pocket.rushReward.getD 0) (pocket.reward.getD 0)
          else pocket.reward.getD 0 * max 1 (cfg.rushRewardMultiplier.getD 1))
        else pocket.reward.getD 0⟩, i + 2) := by
  unfold resolvePocketOutcome
  rw [if_neg h1, if_neg h2, if_neg h3]

/-! ## Claim theorems -/

/-- Claim C1, counterexample: with the default weights `[1, 2, 3, 3, 5]`
(total 14) and a fixed draw `r = 1/2` (target 7), `pickPocket` does not
return the entry at index 2. -/
theorem pickPocket_target_seven_not_index_two :
    (pickPocket defaultConfig.pockets (fun _ => 1/2) 0).1 ≠
      defaultConfig.pockets[2]? := by
  have h : getRandom (fun _ => (1/2 : ℚ)) 0 = 1/2 :=
    getRandom_of_unit _ 0 (by norm_num) (by norm_num)
  simp only [pickPocket, defaultConfig, pickWalk, h]
  norm_num [clampedWeight]
  decide

/-- Claim C1, amended: with weights `[1, 2, 3, 3, 5]` (total 14) and a fixed
draw `r = 1/2` (target 7), `pickPocket` returns the entry at index 3 — the
first entry whose running sum (9) strictly exceeds the target — after
exactly one draw. -/
theorem pickPocket_target_seven_index_three :
    pickPocket defaultConfig.pockets (fun _ => 1/2) 0 =
      (defaultConfig.pockets[3]?, 1) ∧
    defaultConfig.pockets[3]? =
      some ⟨"silver-right", some 10, some 40, some 3⟩ := by
  have h : getRandom (fun _ => (1/2 : ℚ)) 0 = 1/2 :=
    getRandom_of_unit _ 0 (by norm_num) (by norm_num)
  constructor
  · simp only [pickPocket, defaultConfig, pickWalk, h]
    norm_num [clampedWeight]
  · rfl

/-- Claim C4: entry `{reward: 10, rushReward: 40}` with `hitRate = 0.5`,
`rushRate = 0.25` and random sequence `[0.1, 0.1]` resolves to
`{isWin: true, isRush: true, reward: 40}`, consuming both draws. -/
theorem resolve_rush_scenario :
    resolvePocketOutcome ⟨120, 1, some (1/2), some (1/4), some 4, []⟩
      ⟨"silver", some 10, some 40, none⟩ (fun _ => 1/10) 0 =
      (⟨true, true, 40⟩, 2) := by
  have h : ∀ i, getRandom (fun _ => (1/10 : ℚ)) i = 1/10 := fun i =>
    getRandom_of_unit _ i (by norm_num) (by norm_num)
  simp only [resolvePocketOutcome, clamp01, qTruthy, h]
  norm_num

/-- Claim C6: an entry whose reward defaults to a nonpositive value resolves
immediately to `{isWin: false, isRush: false, reward: 0}` with no draw, for
every random source. -/
theorem resolve_miss_gate (cfg : Config) (pocket : Pocket) (provider : ℕ → ℚ)
    (i : ℕ) (h : pocket.reward.getD 0 ≤ 0) :
    resolvePocketOutcome cfg pocket provider i = (⟨false, false, 0⟩, i) :=
  resolve_reward_gate cfg pocket provider i h

/-- Witness for C6 at the default miss pocket (`reward = 0`). -/
theorem resolve_miss_gate_witness :
    resolvePocketOutcome defaultConfig ⟨"miss", some 0, none, some 5⟩
      (fun _ => 1/3) 7 = (⟨false, false, 0⟩, 7) :=
  resolve_miss_gate defaultConfig ⟨"miss", some 0, none, some 5⟩
    (fun _ => 1/3) 7 (by simp)

/-- Claim C8: `getRandom` returns `|v| - floor(|v|)` for the provider value
`v`, and the result always lies in `[0, 1)`. -/
theorem getRandom_range (provider : ℕ → ℚ) (i : ℕ) :
    getRandom provider i = |provider i| - (⌊|provider i|⌋ : ℚ) ∧
    0 ≤ getRandom provider i ∧ getRandom provider i < 1 := by
  refine ⟨rfl, ?_, ?_⟩
  · unfold getRandom
    have := Int.floor_le |provider i|
    linarith
  · unfold getRandom
    have := Int.lt_floor_add_one |provider i|
    linarith

/-- Claim C2, counterexample: the pocket `{reward: 10, rushReward: 0}` has a
defined `rushReward`, yet on a rush win (rates forced to 1, draws 0) the
code pays `reward * max(1, multiplier) = 40`, not
`max(rushReward, reward) = 10` — the floor branch keys on JS truthiness,
not definedness. -/
theorem rushReward_zero_counterexample :
    (Pocket.rushReward ⟨"zr", some 10, some 0, none⟩).isSome = true ∧
    resolvePocketOutcome ⟨120, 1, some 1, some 1, some 4, []⟩
      ⟨"zr", some 10, some 0, none⟩ (fun _ => 0) 0 = (⟨true, true, 40⟩, 2) ∧
    (40 : ℚ) ≠ max ((Pocket.rushReward ⟨"zr", some 10, some 0, none⟩).getD 0)
      ((Pocket.reward ⟨"zr", some 10, some 0, none⟩).getD 0) := by
  refine ⟨rfl, ?_, by norm_num⟩
  have h : ∀ i, getRandom (fun _ => (0 : ℚ)) i = 0 := fun i =>
    getRandom_of_unit _ i le_rfl (by norm_num)
  simp only [resolvePocketOutcome, clamp01, qTruthy, h]
  norm_num

/-- Claim C2, amended: for every entry with positive reward, a rush win pays
`max(entry.rushReward, entry.reward)` when `entry.rushReward` is defined and
nonzero (JS-truthy), and `entry.reward * max(1, rushRewardMultiplier)`
otherwise; in either case the rush payout is never less than the base
reward. -/
theorem rushReward_floor_amended (cfg : Config) (pocket : Pocket)
    (provider : ℕ → ℚ) (i : ℕ) (hreward : 0 < pocket.reward.getD 0)
    (hwin : (resolvePocketOutcome cfg pocket provider i).1.isWin = true)
    (hrush : (resolvePocketOutcome cfg pocket provider i).1.isRush = true) :
    (resolvePocketOutcome cfg pocket provider i).1.reward =
      (if qTruthy pocket.rushReward then
        max (pocket.rushReward.getD 0) (pocket.reward.getD 0)
      else pocket.reward.getD 0 * max 1 (cfg.rushRewardMultiplier.getD 1)) ∧
    pocket.reward.getD 0 ≤ (resolvePocketOutcome cfg pocket provider i).1.reward := by
  have h1 : ¬ pocket.reward.getD 0 ≤ 0 := not_le.mpr hreward
  by_cases h2 : clamp01 (cfg.hitRate.getD 0) ≤ 0
  · rw [resolve_rate_gate cfg pocket provider i h1 h2] at hwin
    exact absurd hwin (by simp)
  by_cases h3 : getRandom provider i ≥ clamp01 (cfg.hitRate.getD 0)
  · rw [resolve_roll_miss cfg pocket provider i h1 h2 h3] at hwin
    exact absurd hwin (by simp)
  rw [resolve_roll_hit cfg pocket provider i h1 h2 h3] at hrush ⊢
  simp only [decide_eq_true_eq] at hrush
  dsimp only
  rw [if_pos hrush]
  refine ⟨rfl, ?_⟩
  by_cases ht : qTruthy pocket.rushReward
  · rw [if_pos ht]
    exact le_max_right _ _
  · rw [if_neg ht]
    exact le_mul_of_one_le_right (le_of_lt hreward) (le_max_left 1 _)

/-- Witness for the amended C2: at the rush scenario of the spec the payout
40 is at least the base reward 10. -/
theorem rushReward_floor_amended_witness :
    (Pocket.reward ⟨"silver", some 10, some 40, none⟩).getD 0 ≤
      (resolvePocketOutcome ⟨120, 1, some (1/2), some (1/4), some 4, []⟩
        ⟨"silver", some 10, some 40, none⟩ (fun _ => 1/10) 0).1.reward := by
  have h : ∀ i, getRandom (fun _ => (1/10 : ℚ)) i = 1/10 := fun i =>
    getRandom_of_unit _ i (by norm_num) (by norm_num)
  refine (rushReward_floor_amended ⟨120, 1, some (1/2), some (1/4), some 4, []⟩
    ⟨"silver", some 10, some 40, none⟩ (fun _ => 1/10) 0 (by norm_num) ?_ ?_).2
  · simp only [resolvePocketOutcome, clamp01, qTruthy, h]
    norm_num
  · simp only [resolvePocketOutcome, clamp01, qTruthy, h]
    norm_num

/-- Claim C3: `resolvePocketOutcome` consumes exactly 0 draws when the
reward gate or the clamped-hit-rate gate fires, exactly 1 draw (a miss) when
the hit roll at index `i` fails, and exactly 2 draws when it passes, the
rush roll then being the draw at index `i + 1`. -/
theorem resolve_draw_count (cfg : Config) (pocket : Pocket)
    (provider : ℕ → ℚ) (i : ℕ) :
    ((pocket.reward.getD 0 ≤ 0 ∨ clamp01 (cfg.hitRate.getD 0) ≤ 0) →
      resolvePocketOutcome cfg pocket provider i = (⟨false, false, 0⟩, i)) ∧
    (0 < pocket.reward.getD 0 → 0 < clamp01 (cfg.hitRate.getD 0) →
      clamp01 (cfg.hitRate.getD 0) ≤ getRandom provider i →
      resolvePocketOutcome cfg pocket provider i = (⟨false, false, 0⟩, i + 1)) ∧
    (0 < pocket.reward.getD 0 → 0 < clamp01 (cfg.hitRate.getD 0) →
      getRandom provider i < clamp01 (cfg.hitRate.getD 0) →
      (resolvePocketOutcome cfg pocket provider i).2 = i + 2 ∧
      (resolvePocketOutcome cfg pocket provider i).1.isWin = true ∧
      (resolvePocketOutcome cfg pocket provider i).1.isRush =
        decide (getRandom provider (i + 1) < clamp01 (cfg.rushRate.getD 0))) := by
  refine ⟨?_, ?_, ?_⟩
  · rintro (h | h)
    · exact resolve_reward_gate cfg pocket provider i h
    · by_cases h1 : pocket.reward.getD 0 ≤ 0
      · exact resolve_reward_gate cfg pocket provider i h1
      · exact resolve_rate_gate cfg pocket provider i h1 h
  · intro hr hc hroll
    exact resolve_roll_miss cfg pocket provider i (not_le.mpr hr)
      (not_le.mpr hc) hroll
  · intro hr hc hroll
    rw [resolve_roll_hit cfg pocket provider i (not_le.mpr hr) (not_le.mpr hc)
      (not_le.mpr hroll)]
    exact ⟨rfl, rfl, rfl⟩

/-- Witness for C3: the spec scenario — entry `{reward: 10, rushReward: 40}`,
`hitRate = 0.5`, sequence `[0.6]` — misses after exactly one draw. -/
theorem resolve_draw_count_witness :
    resolvePocketOutcome ⟨120, 1, some (1/2), some (1/4), some 4, []⟩
      ⟨"silver", some 10, some 40, none⟩ (fun _ => 3/5) 0 =
      (⟨false, false, 0⟩, 1) := by
  have h : getRandom (fun _ => (3/5 : ℚ)) 0 = 3/5 :=
    getRandom_of_unit _ 0 (by norm_num) (by norm_num)
  exact (resolve_draw_count ⟨120, 1, some (1/2), some (1/4), some 4, []⟩
    ⟨"silver", some 10, some 40, none⟩ (fun _ => 3/5) 0).2.1
    (by norm_num) (by norm_num [clamp01]) (by rw [h]; norm_num [clamp01])

/-- Claim C5: with `hitRate = 0.5` and a positive reward, a hit roll of
exactly `0.5` is a miss (the comparison is `>=`), while a hit roll of
`0.4999` is a win. -/
theorem resolve_hit_rate_boundary (cfg : Config) (pocket : Pocket)
    (provider : ℕ → ℚ) (i : ℕ) (hreward : 0 < pocket.reward.getD 0)
    (hrate : cfg.hitRate = some (1/2)) :
    (getRandom provider i = 1/2 →
      (resolvePocketOutcome cfg pocket provider i).1 = ⟨false, false, 0⟩) ∧
    (getRandom provider i = 4999/10000 →
      (resolvePocketOutcome cfg pocket provider i).1.isWin = true) := by
  have hc : clamp01 (cfg.hitRate.getD 0) = 1/2 := by
    rw [hrate]
    norm_num [clamp01]
  constructor
  · intro hroll
    rw [resolve_roll_miss cfg pocket provider i (not_le.mpr hreward)
      (by rw [hc]; norm_num) (by rw [hc, hroll])]
  · intro hroll
    rw [resolve_roll_hit cfg pocket provider i (not_le.mpr hreward)
      (by rw [hc]; norm_num) (by rw [hc, hroll]; norm_num)]

/-- Witness for C5: with the draw stream constantly `0.5` the round is a
miss, and with it constantly `0.4999` the round is a win. -/
theorem resolve_hit_rate_boundary_witness :
    (resolvePocketOutcome ⟨120, 1, some (1/2), some (1/4), some 4, []⟩
      ⟨"silver", some 10, some 40, none⟩ (fun _ => 1/2) 0).1 =
      ⟨false, false, 0⟩ ∧
    (resolvePocketOutcome ⟨120, 1, some (1/2), some (1/4), some 4, []⟩
      ⟨"silver", some 10, some 40, none⟩ (fun _ => 4999/10000) 0).1.isWin =
      true := by
  constructor
  · exact (resolve_hit_rate_boundary ⟨120, 1, some (1/2), some (1/4), some 4, []⟩
      ⟨"silver", some 10, some 40, none⟩ (fun _ => 1/2) 0 (by norm_num) rfl).1
      (getRandom_of_unit _ 0 (by norm_num) (by norm_num))
  · exact (resolve_hit_rate_boundary ⟨120, 1, some (1/2), some (1/4), some 4, []⟩
      ⟨"silver", some 10, some 40, none⟩ (fun _ => 4999/10000) 0 (by norm_num) rfl).2
      (getRandom_of_unit _ 0 (by norm_num) (by norm_num))

/-- Claim C7: when the clamped weights of a non-empty pocket list sum to a
nonpositive total, `pickPocket` returns the first pocket and consumes no
draw, whatever the random source. -/
theorem pickPocket_zero_weight_fallback (pockets : List Pocket)
    (provider : ℕ → ℚ) (i : ℕ) (hne : pockets ≠ [])
    (hw : (pockets.map clampedWeight).sum ≤ 0) :
    pickPocket pockets provider i = (some (pockets.head hne), i) := by
  unfold pickPocket
  rw [if_pos hw]
  cases pockets with
  | nil => exact absurd rfl hne
  | cons a l => simp

/-- Witness for C7: a single pocket of weight 0 is returned with the draw
index untouched. -/
theorem pickPocket_zero_weight_fallback_witness :
    pickPocket [⟨"z", some 0, none, some 0⟩] (fun _ => 9/10) 5 =
      (some ⟨"z", some 0, none, some 0⟩, 5) :=
  pickPocket_zero_weight_fallback [⟨"z", some 0, none, some 0⟩]
    (fun _ => 9/10) 5 (by simp) (by simp [clampedWeight])

/-- Claim C10: an entry whose weight field is absent has clamped weight 1
(via `pocket.weight ?? 1` before clamping), unlike an entry with explicit
weight 0 whose clamped weight is 0; consequently, paired after a weight-0
pocket, the weightless pocket is selected by a genuine proportional draw
(one draw consumed). -/
theorem missing_weight_defaults_to_one (pocket : Pocket) (i : ℕ)
    (hw : pocket.weight = none) :
    clampedWeight pocket = 1 ∧
    (∀ q : Pocket, q.weight = some 0 → clampedWeight q = 0) ∧
    pickPocket [⟨"zero", some 0, none, some 0⟩, pocket] (fun _ => 1/2) i =
      (some pocket, i + 1) := by
  have hcw : clampedWeight pocket = 1 := by simp [clampedWeight, hw]
  refine ⟨hcw, fun q hq => by simp [clampedWeight, hq], ?_⟩
  have h : getRandom (fun _ => (1/2 : ℚ)) i = 1/2 :=
    getRandom_of_unit _ i (by norm_num) (by norm_num)
  simp only [pickPocket, pickWalk, h, hcw, List.map_cons, List.map_nil,
    List.sum_cons, List.sum_nil]
  norm_num [clampedWeight]

/-- Witness for C10: the concrete weightless pocket `"free"` is selected
over the weight-0 pocket by the proportional draw. -/
theorem missing_weight_defaults_to_one_witness :
    pickPocket [⟨"zero", some 0, none, some 0⟩, ⟨"free", some 5, none, none⟩]
      (fun _ => 1/2) 0 = (some ⟨"free", some 5, none, none⟩, 1) :=
  (missing_weight_defaults_to_one ⟨"free", some 5, none, none⟩ 0 rfl).2.2

/-- Credits stay nonnegative across one `handleShoot`. -/
lemma handleShoot_credits_nonneg (cfg : Config) (provider : ℕ → ℚ)
    (s : GameState) (h : 0 ≤ s.credits) :
    0 ≤ (handleShoot cfg provider s).credits := by
  unfold handleShoot
  by_cases hd : s.isDropping
  · rw [if_pos hd]
    exact h
  rw [if_neg hd]
  by_cases hc : s.credits < cfg.ballCost
  · rw [if_pos hc]
    exact h
  rw [if_neg hc]
  have := not_lt.mp hc
  dsimp only
  linarith

/-- Credits never decrease across one `finalizeDrop`. -/
lemma finalizeDrop_credits_mono (cfg : Config) (provider : ℕ → ℚ)
    (pocket : Pocket) (s : GameState) :
    s.credits ≤ (finalizeDrop cfg provider pocket s).credits := by
  unfold finalizeDrop
  dsimp only
  by_cases hr : 0 < (resolvePocketOutcome cfg pocket provider s.rng).1.reward
  · rw [if_pos hr]
    linarith
  · rw [if_neg hr]

/-- Credits stay nonnegative across any single invocation. -/
lemma stepGame_credits_nonneg (cfg : Config) (provider : ℕ → ℚ)
    (hInit : 0 ≤ cfg.initialCredits) (s : GameState) (a : GameAction)
    (h : 0 ≤ s.credits) : 0 ≤ (stepGame cfg provider s a).credits := by
  cases a with
  | shoot => exact handleShoot_credits_nonneg cfg provider s h
  | finalize =>
    cases hp : s.pending with
    | none => simpa [stepGame, hp] using h
    | some pocket =>
      have hmono := finalizeDrop_credits_mono cfg provider pocket s
      simp only [stepGame, hp]
      linarith
  | reset => exact hInit

/-- Credits stay nonnegative across any sequence of invocations. -/
lemma runGame_credits_nonneg (cfg : Config) (provider : ℕ → ℚ)
    (hInit : 0 ≤ cfg.initialCredits) :
    ∀ (actions : List GameAction) (s : GameState), 0 ≤ s.credits →
      0 ≤ (runGame cfg provider s actions).credits
  | [], _, h => h
  | a :: rest, s, h =>
    runGame_credits_nonneg cfg provider hInit rest _
      (stepGame_credits_nonneg cfg provider hInit s a h)

/-- Claim C9: from a configuration with nonnegative initial credits, ball
cost, rewards and rush rewards, the credits stay nonnegative after every
sequence of `handleShoot`, `finalizeDrop` and `handleReset` invocations;
moreover `handleShoot` leaves the state unchanged whenever
`credits < ballCost`. -/
theorem credits_never_negative (cfg : Config) (provider : ℕ → ℚ)
    (actions : List GameAction) (hInit : 0 ≤ cfg.initialCredits)
    (hCost : 0 ≤ cfg.ballCost)
    (hPockets : ∀ p ∈ cfg.pockets,
      0 ≤ p.reward.getD 0 ∧ 0 ≤ p.rushReward.getD 0) :
    0 ≤ (runGame cfg provider (initState cfg) actions).credits ∧
    (∀ s : GameState, s.credits < cfg.ballCost →
      handleShoot cfg provider s = s) := by
  constructor
  · exact runGame_credits_nonneg cfg provider hInit actions (initState cfg) hInit
  · intro s hs
    unfold handleShoot
    by_cases hd : s.isDropping
    · rw [if_pos hd]
    · rw [if_neg hd, if_pos hs]

/-- Witness for C9: three invocations on the default configuration keep the
credits nonnegative. -/
theorem credits_never_negative_witness :
    0 ≤ (runGame defaultConfig (fun _ => 1/2) (initState defaultConfig)
      [GameAction.shoot, GameAction.finalize, GameAction.reset]).credits :=
  (credits_never_negative defaultConfig (fun _ => 1/2)
    [GameAction.shoot, GameAction.finalize, GameAction.reset]
    (by norm_num [defaultConfig]) (by norm_num [defaultConfig])
    (by intro p hp
        simp [defaultConfig] at hp
        rcases hp with h | h | h | h | h <;> subst h <;> simp)).1

end PachinkoCore
